import Mathlib

/-!
Verification of `analyze_heatmaps.py` (Heatnostics repository,
`src/highway-heatmap-app/public/files/analyze_heatmaps.py`).

The script loads a CSV into a pandas DataFrame, drops rows whose
`TX_SIGNED_HIGHWAY_RDBD_ID` or `COUNTY` cell is missing, coerces the score
column to numeric (unparseable values become null), groups the remaining rows
by the (highway, county) pair, and for each group counts two predicates:
"no valid score is strictly below 50" and "the number of valid scores is
strictly below the threshold N".  It then prints the three aggregate counts
and two percentages.

Embedding choices:
* a raw CSV cell of the score column is `RawVal` (a number, an unparseable
  string, or a missing value); `pd.to_numeric(errors=coerce)` is `toNumeric`;
* pandas floats are modelled as exact rationals `ℚ`;
* a DataFrame is its header (list of column names) together with the list of
  rows projected to the three relevant fields (other columns are ignored by
  the script);
* console output is modelled as a list of `Line` values, one constructor per
  f-string of the script, each carrying the dynamic payloads of that
  f-string (the two-decimal string rendering of the percentage value is
  console formatting, out of scope per the script; the `Line` carries the
  exact percentage value `count / total * 100`);
* the run outcome is `Outcome`: a normal early return (the caught
  `FileNotFoundError`), an uncaught `KeyError` (missing column), an uncaught
  `ZeroDivisionError` (zero groups), or normal completion with the three
  counts.
-/

namespace Heatnostics

/-- A raw value of the score column as read from the CSV: a value that parses
as a number, a string that does not parse as a number, or a missing cell. -/
inductive RawVal where
  | num (q : ℚ)
  | str (s : String)
  | null
deriving DecidableEq

/-- `pd.to_numeric(col, errors=coerce)` applied to one cell: a numeric value
stays, anything unparseable or missing becomes null (`none`). -/
def toNumeric : RawVal → Option ℚ
  | .num q => some q
  | .str _ => none
  | .null => none

/-- One input row, projected to the three columns the script reads:
`TX_SIGNED_HIGHWAY_RDBD_ID`, `COUNTY` (each possibly missing/NaN) and the
score column cell. -/
structure Row where
  highway_id : Option String
  county : Option String
  score : RawVal
deriving DecidableEq

/-- A row that survived `df.dropna(subset=[highway, county])`: its group key
and its score cell after numeric coercion. -/
structure CleanRow where
  key : String × String
  score : Option ℚ
deriving DecidableEq

/-- Lines 13 and 16 of the script:
`df = df.dropna(subset=[TX_SIGNED_HIGHWAY_RDBD_ID, COUNTY])` followed by
`df[score_col] = pd.to_numeric(df[score_col], errors=coerce)`.
Rows with a missing highway id or county are dropped; the others keep their
key and their coerced score. -/
def cleanRows (rows : List Row) : List CleanRow :=
  rows.filterMap fun r =>
    match r.highway_id, r.county with
    | some h, some c => some ⟨(h, c), toNumeric r.score⟩
    | _, _ => none

/-- The distinct group keys produced by
`df.groupby([TX_SIGNED_HIGHWAY_RDBD_ID, COUNTY])` (one key per group; the
order of keys is irrelevant to every count the script produces). -/
def groupKeys (cl : List CleanRow) : List (String × String) :=
  (cl.map (·.key)).dedup

/-- The score column of the group keyed by `k`: the coerced scores of the
clean rows whose key is `k`, in row order. -/
def groupScores (cl : List CleanRow) (k : String × String) : List (Option ℚ) :=
  (cl.filter fun r => r.key = k).map (·.score)

/-- `valid_scores = group[score_col].dropna()` (line 33): the group's score
values with nulls removed. -/
def valid_scores (g : List (Option ℚ)) : List ℚ :=
  g.filterMap id

/-- Lines 34 and 36: `scores_below_50 = valid_scores[valid_scores < 50]` and
the test `len(scores_below_50) == 0`. -/
def below50Pred (g : List (Option ℚ)) : Bool :=
  ((valid_scores g).filter fun q => q < 50).length = 0

/-- Lines 43 and 44: `n_points = len(valid_scores)` and the test
`n_points < threshold_n` (the threshold is a Python int, hence `ℤ`). -/
def nThresholdPred (N : ℤ) (g : List (Option ℚ)) : Bool :=
  ((valid_scores g).length : ℤ) < N

/-- The accumulation loop of lines 28-45 over the groups of a cleaned
DataFrame: `total_groups`, `no_cells_below_50_count`,
`below_n_threshold_count`. -/
def analyzeClean (N : ℤ) (cl : List CleanRow) : ℕ × ℕ × ℕ :=
  let ks := groupKeys cl
  (ks.length,
   (ks.filter fun k => below50Pred (groupScores cl k)).length,
   (ks.filter fun k => nThresholdPred N (groupScores cl k)).length)

/-- The three counts of the script on a list of raw rows:
clean (dropna + coercion), group, accumulate. -/
def analyze (N : ℤ) (rows : List Row) : ℕ × ℕ × ℕ :=
  analyzeClean N (cleanRows rows)

/-- The `TX_SIGNED_HIGHWAY_RDBD_ID` column name. -/
def HIGHWAY_COL : String := "TX_SIGNED_HIGHWAY_RDBD_ID"

/-- The `COUNTY` column name. -/
def COUNTY_COL : String := "COUNTY"

/-- The default score column name. -/
def SCORE_COL_DEFAULT : String := "TX_CONDITION_SCORE"

/-- A loaded DataFrame: the CSV header (all column names) and the rows
projected to the three fields the script reads. -/
structure DataFrame where
  columns : List String
  rows : List Row
deriving DecidableEq

/-- One printed console line, one constructor per print statement of the
script, carrying the dynamic payloads of its f-string.  `below50Line` and
`thresholdLine` carry the exact percentage value `count / total * 100`
(rendered to two decimals by the console formatting, which is out of
scope). -/
inductive Line where
  | loading (path : String)
  | fileNotFoundMsg (path : String)
  | grouping
  | analyzing (numGroups : ℕ)
  | separator
  | totalLine (total : ℕ)
  | below50Line (count : ℕ) (pct : ℚ)
  | thresholdLine (n : ℤ) (count : ℕ) (pct : ℚ)
deriving DecidableEq

/-- How one call of `analyze_heatmaps` terminates: an early `return` after the
caught `FileNotFoundError`; an uncaught `KeyError` naming the missing
column(s); an uncaught `ZeroDivisionError` (percentage with zero groups); or
normal completion with the three counts. -/
inductive Outcome where
  | returnedEarly
  | raisedKeyError (missing : List String)
  | raisedZeroDivision
  | completed (total no50 belowN : ℕ)
deriving DecidableEq

/-- The observable behaviour of one call: the console lines printed before
termination, and the outcome. -/
structure RunResult where
  printed : List Line
  outcome : Outcome
deriving DecidableEq

/-- The body of `analyze_heatmaps` after a successful `pd.read_csv` (lines
12-51 of the script).  `df.dropna(subset=...)` raises `KeyError` listing the
subset columns absent from the header; `df[score_col]` raises `KeyError` on a
missing score column; both happen before the Grouping message.  With zero
groups the Total line still prints (line 48) and the first percentage
(line 49) raises `ZeroDivisionError`. -/
def analyze_loaded (file_path : String) (threshold_n : ℤ) (score_col : String)
    (df : DataFrame) : RunResult :=
  if HIGHWAY_COL ∈ df.columns ∧ COUNTY_COL ∈ df.columns then
    if score_col ∈ df.columns then
      if (analyze threshold_n df.rows).1 = 0 then
        ⟨[Line.loading file_path, Line.grouping,
          Line.analyzing (analyze threshold_n df.rows).1, Line.separator,
          Line.totalLine (analyze threshold_n df.rows).1],
         .raisedZeroDivision⟩
      else
        ⟨[Line.loading file_path, Line.grouping,
          Line.analyzing (analyze threshold_n df.rows).1, Line.separator,
          Line.totalLine (analyze threshold_n df.rows).1,
          Line.below50Line (analyze threshold_n df.rows).2.1
            (((analyze threshold_n df.rows).2.1 : ℚ) /
              ((analyze threshold_n df.rows).1 : ℚ) * 100),
          Line.thresholdLine threshold_n (analyze threshold_n df.rows).2.2
            (((analyze threshold_n df.rows).2.2 : ℚ) /
              ((analyze threshold_n df.rows).1 : ℚ) * 100),
          Line.separator],
         .completed (analyze threshold_n df.rows).1 (analyze threshold_n df.rows).2.1
           (analyze threshold_n df.rows).2.2⟩
    else ⟨[.loading file_path], .raisedKeyError [score_col]⟩
  else
    ⟨[.loading file_path],
     .raisedKeyError ([HIGHWAY_COL, COUNTY_COL].filter fun c => c ∉ df.columns)⟩

/-- The whole `analyze_heatmaps(file_path, threshold_n, score_col)` function.
The file system is a map from paths to the DataFrame `pd.read_csv` would
produce (`none` = `FileNotFoundError`). -/
def analyze_heatmaps (file_path : String) (threshold_n : ℤ) (score_col : String)
    (fs : String → Option DataFrame) : RunResult :=
  match fs file_path with
  | none => ⟨[.loading file_path, .fileNotFoundMsg file_path], .returnedEarly⟩
  | some df => analyze_loaded file_path threshold_n score_col df

/-! ## Helper lemmas -/

/-- The below-50 test is the Boolean decision of "no valid score is strictly
below 50". -/
theorem below50Pred_eq_decide (g : List (Option ℚ)) :
    below50Pred g = decide (∀ q ∈ valid_scores g, ¬ q < 50) := by
  simp [below50Pred, List.length_eq_zero, List.filter_eq_nil_iff]

/-- The N-threshold test is the Boolean decision of "the number of valid
scores is strictly below N". -/
theorem nThresholdPred_eq_decide (N : ℤ) (g : List (Option ℚ)) :
    nThresholdPred N g = decide (((valid_scores g).length : ℤ) < N) := by
  simp [nThresholdPred]

/-- Unfolding `analyze_heatmaps` when the file loads. -/
theorem analyze_heatmaps_some (file_path : String) (threshold_n : ℤ) (score_col : String)
    (fs : String → Option DataFrame) (df : DataFrame) (hfs : fs file_path = some df) :
    analyze_heatmaps file_path threshold_n score_col fs =
      analyze_loaded file_path threshold_n score_col df := by
  unfold analyze_heatmaps
  rw [hfs]

theorem cleanRows_perm {rows₁ rows₂ : List Row} (h : rows₁.Perm rows₂) :
    (cleanRows rows₁).Perm (cleanRows rows₂) :=
  h.filterMap _

theorem groupScores_perm {cl₁ cl₂ : List CleanRow} (h : cl₁.Perm cl₂)
    (k : String × String) : (groupScores cl₁ k).Perm (groupScores cl₂ k) :=
  (h.filter _).map _

theorem valid_scores_perm {g₁ g₂ : List (Option ℚ)} (h : g₁.Perm g₂) :
    (valid_scores g₁).Perm (valid_scores g₂) :=
  h.filterMap _

theorem below50Pred_perm {g₁ g₂ : List (Option ℚ)} (h : g₁.Perm g₂) :
    below50Pred g₁ = below50Pred g₂ := by
  simp only [below50Pred, ((valid_scores_perm h).filter _).length_eq]

theorem nThresholdPred_perm {g₁ g₂ : List (Option ℚ)} (N : ℤ) (h : g₁.Perm g₂) :
    nThresholdPred N g₁ = nThresholdPred N g₂ := by
  simp only [nThresholdPred, (valid_scores_perm h).length_eq]

/-! ## Claim theorems -/

/-- C1: for every group, the below-50 predicate holds iff zero elements of the
group's valid scores are strictly less than 50 (equivalently, every valid
score is ≥ 50); a score equal to 50 does not count as below 50 (a group whose
only valid score is exactly 50 satisfies the predicate);
and `no_cells_below_50_count` counts exactly the groups with no low-scoring
cell. -/
theorem below50_no_low_cell :
    (∀ g : List (Option ℚ), below50Pred g = true ↔ ∀ q ∈ valid_scores g, ¬ q < 50)
    ∧ below50Pred [some 50] = true
    ∧ (∀ (N : ℤ) (rows : List Row),
        (analyze N rows).2.1 =
          ((groupKeys (cleanRows rows)).filter fun k =>
            decide (∀ q ∈ valid_scores (groupScores (cleanRows rows) k), ¬ q < 50)).length) := by
  refine ⟨fun g => ?_, by decide, fun N rows => ?_⟩
  · rw [below50Pred_eq_decide]; exact decide_eq_true_iff
  · show ((groupKeys (cleanRows rows)).filter _).length = _
    congr 1
    exact List.filter_congr fun k _ => below50Pred_eq_decide _

/-- C1 witness: the predicate equivalence instantiated at the group of
Scenario 2 (scores 60 and 70). -/
theorem below50_no_low_cell_witness :
    below50Pred [some 60, some 70] = true ↔
      ∀ q ∈ valid_scores [some 60, some 70], ¬ q < 50 :=
  below50_no_low_cell.1 [some 60, some 70]

/-- C2: for every group, the N-threshold predicate holds iff the number of the
group's valid scores is strictly less than N; the count of rows in the group
is irrelevant (a group of three rows, one valid score, satisfies the
predicate at N = 2 although it has 3 ≥ 2 rows); and `below_n_threshold_count`
counts exactly the groups satisfying it. -/
theorem nthreshold_valid_count :
    (∀ (N : ℤ) (g : List (Option ℚ)),
        nThresholdPred N g = true ↔ ((valid_scores g).length : ℤ) < N)
    ∧ (nThresholdPred 2 [some 1, none, none] = true
        ∧ ¬ ((([some (1 : ℚ), none, none] : List (Option ℚ)).length : ℤ) < 2))
    ∧ (∀ (N : ℤ) (rows : List Row),
        (analyze N rows).2.2 =
          ((groupKeys (cleanRows rows)).filter fun k =>
            decide (((valid_scores (groupScores (cleanRows rows) k)).length : ℤ) < N)).length) := by
  refine ⟨fun N g => ?_, by constructor <;> decide, fun N rows => ?_⟩
  · rw [nThresholdPred_eq_decide]; exact decide_eq_true_iff
  · rfl

/-- C2 witness: the predicate equivalence instantiated at N = 5 and the group
of Scenario 2. -/
theorem nthreshold_valid_count_witness :
    nThresholdPred 5 [some 60, some 70] = true ↔
      ((valid_scores [some 60, some 70]).length : ℤ) < 5 :=
  nthreshold_valid_count.1 5 [some 60, some 70]

/-- C3: when the input file does not exist, the run prints exactly the loading
message and an error message carrying the path, then returns normally: no
grouping or summary line is printed and no exception propagates. -/
theorem file_not_found_aborts (path : String) (n : ℤ) (sc : String)
    (fs : String → Option DataFrame) (h : fs path = none) :
    analyze_heatmaps path n sc fs =
      ⟨[Line.loading path, Line.fileNotFoundMsg path], Outcome.returnedEarly⟩ := by
  unfold analyze_heatmaps
  rw [h]

/-- C3 witness: the file-not-found behaviour on an empty file system. -/
theorem file_not_found_aborts_witness :
    analyze_heatmaps "PMIS_2024_trimmed.csv" 5 SCORE_COL_DEFAULT (fun _ => none) =
      ⟨[Line.loading "PMIS_2024_trimmed.csv",
        Line.fileNotFoundMsg "PMIS_2024_trimmed.csv"], Outcome.returnedEarly⟩ :=
  file_not_found_aborts "PMIS_2024_trimmed.csv" 5 SCORE_COL_DEFAULT (fun _ => none) rfl

/-- C4: a row whose highway id or county is missing is dropped before
grouping: adding it to the input changes neither the cleaned row list nor any
of the three counts (`total_groups`, `no_cells_below_50_count`,
`below_n_threshold_count`). -/
theorem missing_key_row_excluded (r : Row) (rows : List Row) (N : ℤ)
    (h : r.highway_id = none ∨ r.county = none) :
    cleanRows (r :: rows) = cleanRows rows ∧ analyze N (r :: rows) = analyze N rows := by
  have hcl : cleanRows (r :: rows) = cleanRows rows := by
    unfold cleanRows
    rcases h with h | h <;>
      · rw [List.filterMap_cons]
        rcases hh : r.highway_id with _ | v <;> rcases hc : r.county with _ | w <;>
          simp_all
  exact ⟨hcl, by unfold analyze; rw [hcl]⟩

/-- C4 witness: a row with a missing county, prepended to a one-row input,
leaves all three counts unchanged. -/
theorem missing_key_row_excluded_witness :
    cleanRows (⟨some "IH0035", none, .num 40⟩ ::
        [⟨some "IH0035", some "TRAVIS", .num 60⟩]) =
      cleanRows [⟨some "IH0035", some "TRAVIS", .num 60⟩]
    ∧ analyze 5 (⟨some "IH0035", none, .num 40⟩ ::
        [⟨some "IH0035", some "TRAVIS", .num 60⟩]) =
      analyze 5 [⟨some "IH0035", some "TRAVIS", .num 60⟩] :=
  missing_key_row_excluded ⟨some "IH0035", none, .num 40⟩
    [⟨some "IH0035", some "TRAVIS", .num 60⟩] 5 (Or.inr rfl)

/-- C5: a row whose score cell is an unparseable string coerces to a null
score without an error; it is kept by the cleaning step, its group's list of
valid scores is unchanged by it, yet the group's row count grows by one
(the row still belongs to its (highway, county) group). -/
theorem unparseable_score_null_member (h c s : String) (rows : List Row) :
    toNumeric (RawVal.str s) = none
    ∧ cleanRows (⟨some h, some c, RawVal.str s⟩ :: rows) =
        ⟨(h, c), none⟩ :: cleanRows rows
    ∧ valid_scores (groupScores (cleanRows (⟨some h, some c, RawVal.str s⟩ :: rows)) (h, c)) =
        valid_scores (groupScores (cleanRows rows) (h, c))
    ∧ (groupScores (cleanRows (⟨some h, some c, RawVal.str s⟩ :: rows)) (h, c)).length =
        (groupScores (cleanRows rows) (h, c)).length + 1 := by
  have hcl : cleanRows (⟨some h, some c, RawVal.str s⟩ :: rows) =
      ⟨(h, c), none⟩ :: cleanRows rows := by
    unfold cleanRows
    rw [List.filterMap_cons]
    rfl
  have hgs : groupScores (cleanRows (⟨some h, some c, RawVal.str s⟩ :: rows)) (h, c) =
      none :: groupScores (cleanRows rows) (h, c) := by
    rw [hcl]
    unfold groupScores
    rw [List.filter_cons_of_pos (by simp), List.map_cons]
  refine ⟨rfl, hcl, ?_, ?_⟩
  · rw [hgs]
    rfl
  · rw [hgs, List.length_cons]

/-- C6: a group with zero valid scores satisfies both predicates for every
threshold N ≥ 1: the below-50 predicate holds vacuously and the N-threshold
predicate holds since 0 < N. -/
theorem zero_valid_scores_both_preds (g : List (Option ℚ)) (N : ℤ)
    (hg : valid_scores g = []) (hN : 1 ≤ N) :
    below50Pred g = true ∧ nThresholdPred N g = true := by
  constructor
  · unfold below50Pred
    rw [hg]
    rfl
  · unfold nThresholdPred
    rw [hg]
    simpa using hN

/-- C6 witness: the all-null one-row group at the default threshold 5. -/
theorem zero_valid_scores_both_preds_witness :
    below50Pred [none] = true ∧ nThresholdPred 5 [none] = true :=
  zero_valid_scores_both_preds [none] 5 (by decide) (by decide)

/-- C7: after a successful load of a DataFrame with the three needed columns,
the run raises `ZeroDivisionError` exactly when the cleaned input produces
zero groups, and completes normally with the three counts otherwise — the
zero-group division is the only input-dependent failure after a successful
load of a well-formed file. -/
theorem zero_groups_division_by_zero (path : String) (n : ℤ) (sc : String)
    (fs : String → Option DataFrame) (df : DataFrame) (hfs : fs path = some df)
    (hH : HIGHWAY_COL ∈ df.columns) (hC : COUNTY_COL ∈ df.columns)
    (hS : sc ∈ df.columns) :
    (analyze_heatmaps path n sc fs).outcome =
      if (analyze n df.rows).1 = 0 then Outcome.raisedZeroDivision
      else Outcome.completed (analyze n df.rows).1 (analyze n df.rows).2.1
        (analyze n df.rows).2.2 := by
  rw [analyze_heatmaps_some path n sc fs df hfs]
  unfold analyze_loaded
  rw [if_pos ⟨hH, hC⟩, if_pos hS]
  by_cases h0 : (analyze n df.rows).1 = 0
  · rw [if_pos h0, if_pos h0]
  · rw [if_neg h0, if_neg h0]

/-- C7 witness: a well-formed file whose only row has a missing county cleans
to zero groups and the run raises `ZeroDivisionError`. -/
theorem zero_groups_division_by_zero_witness :
    (analyze_heatmaps "PMIS_2024_trimmed.csv" 5 SCORE_COL_DEFAULT
      (fun _ => some ⟨[HIGHWAY_COL, COUNTY_COL, SCORE_COL_DEFAULT],
        [⟨some "IH0035", none, RawVal.num 60⟩]⟩)).outcome =
      Outcome.raisedZeroDivision :=
  (zero_groups_division_by_zero "PMIS_2024_trimmed.csv" 5 SCORE_COL_DEFAULT
    (fun _ => some ⟨[HIGHWAY_COL, COUNTY_COL, SCORE_COL_DEFAULT],
      [⟨some "IH0035", none, RawVal.num 60⟩]⟩)
    ⟨[HIGHWAY_COL, COUNTY_COL, SCORE_COL_DEFAULT],
      [⟨some "IH0035", none, RawVal.num 60⟩]⟩
    rfl (by decide) (by decide) (by decide)).trans (by decide)

/-- C8: the three aggregate counts (`total_groups`, `no_cells_below_50_count`,
`below_n_threshold_count`) are invariant under any permutation of the input
rows. -/
theorem counts_permutation_invariant (N : ℤ) (rows₁ rows₂ : List Row)
    (h : rows₁.Perm rows₂) : analyze N rows₁ = analyze N rows₂ := by
  have hcl := cleanRows_perm h
  have hkeys : (groupKeys (cleanRows rows₁)).Perm (groupKeys (cleanRows rows₂)) :=
    (hcl.map _).dedup
  have h1 : (groupKeys (cleanRows rows₁)).length = (groupKeys (cleanRows rows₂)).length :=
    hkeys.length_eq
  have h2 : ((groupKeys (cleanRows rows₁)).filter fun k =>
      below50Pred (groupScores (cleanRows rows₁) k)).length =
      ((groupKeys (cleanRows rows₂)).filter fun k =>
        below50Pred (groupScores (cleanRows rows₂) k)).length := by
    rw [List.filter_congr fun k _ => below50Pred_perm (groupScores_perm hcl k)]
    exact (hkeys.filter _).length_eq
  have h3 : ((groupKeys (cleanRows rows₁)).filter fun k =>
      nThresholdPred N (groupScores (cleanRows rows₁) k)).length =
      ((groupKeys (cleanRows rows₂)).filter fun k =>
        nThresholdPred N (groupScores (cleanRows rows₂) k)).length := by
    rw [List.filter_congr fun k _ => nThresholdPred_perm N (groupScores_perm hcl k)]
    exact (hkeys.filter _).length_eq
  show ((groupKeys (cleanRows rows₁)).length,
      ((groupKeys (cleanRows rows₁)).filter fun k =>
        below50Pred (groupScores (cleanRows rows₁) k)).length,
      ((groupKeys (cleanRows rows₁)).filter fun k =>
        nThresholdPred N (groupScores (cleanRows rows₁) k)).length) =
    ((groupKeys (cleanRows rows₂)).length,
      ((groupKeys (cleanRows rows₂)).filter fun k =>
        below50Pred (groupScores (cleanRows rows₂) k)).length,
      ((groupKeys (cleanRows rows₂)).filter fun k =>
        nThresholdPred N (groupScores (cleanRows rows₂) k)).length)
  rw [h1, h2, h3]

/-- C8 witness: swapping the two rows of a two-row input leaves the three
counts unchanged. -/
theorem counts_permutation_invariant_witness :
    analyze 5 [⟨some "IH0035", some "TRAVIS", RawVal.num 60⟩,
               ⟨some "US0290", some "HARRIS", RawVal.num 40⟩] =
      analyze 5 [⟨some "US0290", some "HARRIS", RawVal.num 40⟩,
                 ⟨some "IH0035", some "TRAVIS", RawVal.num 60⟩] :=
  counts_permutation_invariant 5 _ _ (by decide)

/-- C9: with at least one group, both counts are bounded by `total_groups`,
the two summary lines carry exactly the percentage value
`count / total_groups * 100`, and each of the two percentages lies in
[0, 100]. -/
theorem percentages_formula_and_bounds (path : String) (n : ℤ) (sc : String)
    (fs : String → Option DataFrame) (df : DataFrame) (hfs : fs path = some df)
    (hH : HIGHWAY_COL ∈ df.columns) (hC : COUNTY_COL ∈ df.columns)
    (hS : sc ∈ df.columns) (h0 : (analyze n df.rows).1 ≠ 0) :
    (analyze n df.rows).2.1 ≤ (analyze n df.rows).1
    ∧ (analyze n df.rows).2.2 ≤ (analyze n df.rows).1
    ∧ (analyze_heatmaps path n sc fs).printed =
        [Line.loading path, Line.grouping, Line.analyzing (analyze n df.rows).1,
         Line.separator, Line.totalLine (analyze n df.rows).1,
         Line.below50Line (analyze n df.rows).2.1
           (((analyze n df.rows).2.1 : ℚ) / ((analyze n df.rows).1 : ℚ) * 100),
         Line.thresholdLine n (analyze n df.rows).2.2
           (((analyze n df.rows).2.2 : ℚ) / ((analyze n df.rows).1 : ℚ) * 100),
         Line.separator]
    ∧ 0 ≤ ((analyze n df.rows).2.1 : ℚ) / ((analyze n df.rows).1 : ℚ) * 100
    ∧ ((analyze n df.rows).2.1 : ℚ) / ((analyze n df.rows).1 : ℚ) * 100 ≤ 100
    ∧ 0 ≤ ((analyze n df.rows).2.2 : ℚ) / ((analyze n df.rows).1 : ℚ) * 100
    ∧ ((analyze n df.rows).2.2 : ℚ) / ((analyze n df.rows).1 : ℚ) * 100 ≤ 100 := by
  have hle1 : (analyze n df.rows).2.1 ≤ (analyze n df.rows).1 := by
    show ((groupKeys (cleanRows df.rows)).filter fun k =>
        below50Pred (groupScores (cleanRows df.rows) k)).length ≤
      (groupKeys (cleanRows df.rows)).length
    exact List.length_filter_le _ _
  have hle2 : (analyze n df.rows).2.2 ≤ (analyze n df.rows).1 := by
    show ((groupKeys (cleanRows df.rows)).filter fun k =>
        nThresholdPred n (groupScores (cleanRows df.rows) k)).length ≤
      (groupKeys (cleanRows df.rows)).length
    exact List.length_filter_le _ _
  have htpos : (0 : ℚ) < ((analyze n df.rows).1 : ℚ) := by
    exact_mod_cast Nat.pos_of_ne_zero h0
  have hd1 : ((analyze n df.rows).2.1 : ℚ) / ((analyze n df.rows).1 : ℚ) ≤ 1 :=
    div_le_one_of_le₀ (by exact_mod_cast hle1) (le_of_lt htpos)
  have hd2 : ((analyze n df.rows).2.2 : ℚ) / ((analyze n df.rows).1 : ℚ) ≤ 1 :=
    div_le_one_of_le₀ (by exact_mod_cast hle2) (le_of_lt htpos)
  refine ⟨hle1, hle2, ?_, by positivity, by nlinarith [hd1], by positivity,
    by nlinarith [hd2]⟩
  rw [analyze_heatmaps_some path n sc fs df hfs]
  unfold analyze_loaded
  rw [if_pos ⟨hH, hC⟩, if_pos hS, if_neg h0]

/-- C9 witness: the below-50 count is bounded by the group count on a
one-row, one-group input. -/
theorem percentages_formula_and_bounds_witness :
    (analyze 5 [⟨some "IH0035", some "TRAVIS", RawVal.num 60⟩]).2.1 ≤
      (analyze 5 [⟨some "IH0035", some "TRAVIS", RawVal.num 60⟩]).1 :=
  (percentages_formula_and_bounds "PMIS_2024_trimmed.csv" 5 SCORE_COL_DEFAULT
    (fun _ => some ⟨[HIGHWAY_COL, COUNTY_COL, SCORE_COL_DEFAULT],
      [⟨some "IH0035", some "TRAVIS", RawVal.num 60⟩]⟩)
    ⟨[HIGHWAY_COL, COUNTY_COL, SCORE_COL_DEFAULT],
      [⟨some "IH0035", some "TRAVIS", RawVal.num 60⟩]⟩
    rfl (by decide) (by decide) (by decide) (by decide)).1

/-- C10: when the file loads but the score column or a grouping column is
absent from the header, the run terminates with an uncaught `KeyError` —
unlike file-not-found, which is reported and absorbed — and only the loading
progress message has been printed (no grouping or summary line). -/
theorem missing_column_keyerror (path : String) (n : ℤ) (sc : String)
    (fs : String → Option DataFrame) (df : DataFrame) (hfs : fs path = some df)
    (h : ¬(HIGHWAY_COL ∈ df.columns ∧ COUNTY_COL ∈ df.columns) ∨ sc ∉ df.columns) :
    (∃ cols, (analyze_heatmaps path n sc fs).outcome = Outcome.raisedKeyError cols)
    ∧ (analyze_heatmaps path n sc fs).printed = [Line.loading path] := by
  rw [analyze_heatmaps_some path n sc fs df hfs]
  unfold analyze_loaded
  by_cases h1 : HIGHWAY_COL ∈ df.columns ∧ COUNTY_COL ∈ df.columns
  · have h2 : sc ∉ df.columns := h.resolve_left (not_not_intro h1)
    rw [if_pos h1, if_neg h2]
    exact ⟨⟨[sc], rfl⟩, rfl⟩
  · rw [if_neg h1]
    exact ⟨⟨_, rfl⟩, rfl⟩

/-- C10 witness: a loaded file that has the two grouping columns but lacks
the score column ends in an uncaught `KeyError` with only the loading
message printed. -/
theorem missing_column_keyerror_witness :
    (∃ cols, (analyze_heatmaps "PMIS_2024_trimmed.csv" 5 SCORE_COL_DEFAULT
      (fun _ => some ⟨[HIGHWAY_COL, COUNTY_COL],
        [⟨some "IH0035", some "TRAVIS", RawVal.str "sixty"⟩]⟩)).outcome =
        Outcome.raisedKeyError cols)
    ∧ (analyze_heatmaps "PMIS_2024_trimmed.csv" 5 SCORE_COL_DEFAULT
        (fun _ => some ⟨[HIGHWAY_COL, COUNTY_COL],
          [⟨some "IH0035", some "TRAVIS", RawVal.str "sixty"⟩]⟩)).printed =
        [Line.loading "PMIS_2024_trimmed.csv"] :=
  missing_column_keyerror "PMIS_2024_trimmed.csv" 5 SCORE_COL_DEFAULT
    (fun _ => some ⟨[HIGHWAY_COL, COUNTY_COL],
      [⟨some "IH0035", some "TRAVIS", RawVal.str "sixty"⟩]⟩)
    ⟨[HIGHWAY_COL, COUNTY_COL],
      [⟨some "IH0035", some "TRAVIS", RawVal.str "sixty"⟩]⟩
    rfl (Or.inr (by decide))

end Heatnostics
